import Mathlib

/-!
Shallow embedding of the Vivafolio Python language-support runtime
(src/language-support/python/vivafolio/core.py, legacy.py, and the
runtime-path test helper copy src/test/runtime-path/python/vivafolio_helpers.py),
together with models of the standard-library functions those modules call:
hashlib.md5, the CPython siphash13-based str hash, json.loads, and the
regular expression search used by the legacy gui_state extractor.

Stdout effects are modelled by returning the notification object that the
source serialises with json.dumps and prints as one line; resource-file
existence and the per-process hash key are explicit environment parameters.
-/

set_option maxRecDepth 8000

namespace Vivafolio

/-- Unicode code points of a string, in order. Python 3 strings are sequences
of code points; the ASCII/BMP strings occurring in this development coincide
with Lean strings. -/
def codes (s : String) : List Nat := s.toList.map Char.toNat

/-- UTF-8 encoding of one Unicode code point, as produced by Python
str.encode() with the default encoding. -/
def utf8Char (n : Nat) : List Nat :=
  if n < 128 then [n]
  else if n < 2048 then [192 + n / 64, 128 + n % 64]
  else if n < 65536 then [224 + n / 4096, 128 + n / 64 % 64, 128 + n % 64]
  else [240 + n / 262144, 128 + n / 4096 % 64, 128 + n / 64 % 64, 128 + n % 64]

/-- UTF-8 bytes of a string: models Python str.encode(). -/
def strBytes (s : String) : List Nat := (codes s).flatMap utf8Char

/-! ### MD5 (models hashlib.md5, used by core.py for identity digests) -/

/-- Truncation to a 32-bit word. -/
def w32 (x : Nat) : Nat := x % 4294967296

/-- Left rotation of a 32-bit word. -/
def rotl32 (x n : Nat) : Nat := w32 (x * 2 ^ n + x / 2 ^ (32 - n))

/-- Bitwise complement on 32 bits. -/
def not32 (x : Nat) : Nat := 4294967295 - w32 x

/-- The 64 MD5 sine-derived round constants. -/
def md5K : List Nat :=
  [3614090360, 3905402710, 606105819, 3250441966, 4118548399, 1200080426, 2821735955, 4249261313,
   1770035416, 2336552879, 4294925233, 2304563134, 1804603682, 4254626195, 2792965006, 1236535329,
   4129170786, 3225465664, 643717713, 3921069994, 3593408605, 38016083, 3634488961, 3889429448,
   568446438, 3275163606, 4107603335, 1163531501, 2850285829, 4243563512, 1735328473, 2368359562,
   4294588738, 2272392833, 1839030562, 4259657740, 2763975236, 1272893353, 4139469664, 3200236656,
   681279174, 3936430074, 3572445317, 76029189, 3654602809, 3873151461, 530742520, 3299628645,
   4096336452, 1126891415, 2878612391, 4237533241, 1700485571, 2399980690, 4293915773, 2240044497,
   1873313359, 4264355552, 2734768916, 1309151649, 4149444226, 3174756917, 718787259, 3951481745]

/-- The 64 MD5 per-round shift amounts. -/
def md5S : List Nat :=
  [7, 12, 17, 22, 7, 12, 17, 22, 7, 12, 17, 22, 7, 12, 17, 22,
   5, 9, 14, 20, 5, 9, 14, 20, 5, 9, 14, 20, 5, 9, 14, 20,
   4, 11, 16, 23, 4, 11, 16, 23, 4, 11, 16, 23, 4, 11, 16, 23,
   6, 10, 15, 21, 6, 10, 15, 21, 6, 10, 15, 21, 6, 10, 15, 21]

/-- The k little-endian bytes of x. -/
def leBytes (k x : Nat) : List Nat :=
  match k with
  | 0 => []
  | Nat.succ k2 => x % 256 :: leBytes k2 (x / 256)

/-- MD5 padding: a 0x80 byte, zero bytes until the length is 56 mod 64, then
the original bit length as 8 little-endian bytes (mod 2^64). -/
def md5pad (msg : List Nat) : List Nat :=
  let len := msg.length
  msg ++ [128] ++ List.replicate ((119 - len % 64) % 64) 0 ++
    leBytes 8 (len * 8 % 18446744073709551616)

/-- Split a byte list into 64-byte chunks (fuel bounds the recursion; any
fuel at least the list length gives the full chunking). -/
def chunks64Fuel : Nat → List Nat → List (List Nat)
  | 0, _ => []
  | _, [] => []
  | Nat.succ f, x :: xs => (x :: xs).take 64 :: chunks64Fuel f ((x :: xs).drop 64)

/-- Split a byte list into 64-byte chunks. -/
def chunks64 (xs : List Nat) : List (List Nat) := chunks64Fuel xs.length xs

/-- The 16 little-endian 32-bit words of one 64-byte chunk. -/
def chunkWords (c : List Nat) : List Nat :=
  (List.range 16).map (fun i =>
    c.getD (4 * i) 0 + 256 * c.getD (4 * i + 1) 0 +
      65536 * c.getD (4 * i + 2) 0 + 16777216 * c.getD (4 * i + 3) 0)

/-- Running MD5 state: the four 32-bit registers. -/
structure MD5State where
  a : Nat
  b : Nat
  c : Nat
  d : Nat

/-- Round function value and message-word index for round i of MD5. -/
def md5FG (i b c d : Nat) : Nat × Nat :=
  if i < 16 then ((b &&& c) ||| (not32 b &&& d), i)
  else if i < 32 then ((d &&& b) ||| (not32 d &&& c), (5 * i + 1) % 16)
  else if i < 48 then (b ^^^ c ^^^ d, (3 * i + 5) % 16)
  else (c ^^^ (b ||| not32 d), 7 * i % 16)

/-- One MD5 round on message words m. -/
def md5Round (m : List Nat) (st : MD5State) (i : Nat) : MD5State :=
  let fg := md5FG i st.b st.c st.d
  let f := w32 (fg.1 + st.a + md5K.getD i 0 + m.getD fg.2 0)
  ⟨st.d, w32 (st.b + rotl32 f (md5S.getD i 0)), st.b, st.c⟩

/-- Process one 64-byte chunk. -/
def md5Chunk (st0 : MD5State) (c : List Nat) : MD5State :=
  let m := chunkWords c
  let st := (List.range 64).foldl (md5Round m) st0
  ⟨w32 (st0.a + st.a), w32 (st0.b + st.b), w32 (st0.c + st.c), w32 (st0.d + st.d)⟩

/-- Lowercase hexadecimal digit. -/
def hexDigit (n : Nat) : Char := if n < 10 then Char.ofNat (48 + n) else Char.ofNat (87 + n % 16)

/-- Two lowercase hex digits of a byte. -/
def byteHex (b : Nat) : List Char := [hexDigit (b / 16 % 16), hexDigit (b % 16)]

/-- Lowercase hex digest of the MD5 of a byte list: models
hashlib.md5(bytes).hexdigest(). -/
def md5Hex (msg : List Nat) : String :=
  let st := (chunks64 (md5pad msg)).foldl md5Chunk ⟨1732584193, 4023233417, 2562383102, 271733878⟩
  String.mk (((leBytes 4 st.a ++ leBytes 4 st.b ++ leBytes 4 st.c ++ leBytes 4 st.d).map byteHex).flatten)

/-- Sanity: the model reproduces the published MD5 of "abc". -/
theorem md5Hex_abc : md5Hex (strBytes "abc") = "900150983cd24fb0d6963f7d28e17f72" := by decide

/-- Sanity: the model reproduces the published MD5 of the empty message. -/
theorem md5Hex_empty : md5Hex [] = "d41d8cd98f00b204e9800998ecf8427e" := by decide

/-! ### CPython str hash
The runtime-path helper copy (src/test/runtime-path/python/vivafolio_helpers.py)
derives block and entity ids from hash(str(color_value)). CPython hashes str
objects with siphash13 keyed by the per-process 128-bit hash key
(_Py_HashSecret, randomised at interpreter start unless PYTHONHASHSEED is
fixed). This section models that hash; the key (k0, k1) is the
process-instance parameter. -/

/-- Truncation to a 64-bit word. -/
def w64 (x : Nat) : Nat := x % 18446744073709551616

/-- Left rotation of a 64-bit word. -/
def rotl64 (x n : Nat) : Nat := w64 (x * 2 ^ n + x / 2 ^ (64 - n))

/-- Running siphash state: the four 64-bit registers. -/
structure SipState where
  v0 : Nat
  v1 : Nat
  v2 : Nat
  v3 : Nat

/-- One siphash round (two half rounds), as in CPython pyhash.c. -/
def sipRound (s : SipState) : SipState :=
  let a0 := w64 (s.v0 + s.v1)
  let c0 := w64 (s.v2 + s.v3)
  let b0 := rotl64 s.v1 13 ^^^ a0
  let d0 := rotl64 s.v3 16 ^^^ c0
  let a1 := rotl64 a0 32
  let c1 := w64 (c0 + b0)
  let a2 := w64 (a1 + d0)
  let b1 := rotl64 b0 17 ^^^ c1
  let d1 := rotl64 d0 21 ^^^ a2
  let c2 := rotl64 c1 32
  ⟨a2, b1, c2, d1⟩

/-- Little-endian value of a byte list (at most 8 bytes are ever passed). -/
def leVal (bs : List Nat) : Nat := bs.foldr (fun b acc => b + 256 * acc) 0

/-- Absorb full 8-byte words of the message (fuel bounds the recursion; the
message length is always enough fuel). Returns the state and the tail of
fewer than 8 bytes. -/
def sipBodyFuel : Nat → SipState → List Nat → SipState × List Nat
  | 0, st, m => (st, m)
  | Nat.succ f, st, m =>
    if m.length ≥ 8 then
      let mi := leVal (m.take 8)
      let st1 := sipRound { st with v3 := st.v3 ^^^ mi }
      sipBodyFuel f { st1 with v0 := st1.v0 ^^^ mi } (m.drop 8)
    else (st, m)

/-- CPython's siphash13 (pyhash.c) of a byte list under key (k0, k1):
1 compression round per word, 3 finalization rounds. -/
def pysiphash13 (k0 k1 : Nat) (m : List Nat) : Nat :=
  let b0 := w64 (m.length * 72057594037927936)
  let st0 : SipState :=
    ⟨8317987319222330741 ^^^ k0, 7237128888997146477 ^^^ k1,
     7816392313619706465 ^^^ k0, 8387220255154660723 ^^^ k1⟩
  let p := sipBodyFuel m.length st0 m
  let b := b0 ||| leVal p.2
  let st1 := sipRound { p.1 with v3 := p.1.v3 ^^^ b }
  let st2 := { st1 with v0 := st1.v0 ^^^ b }
  let st3 := { st2 with v2 := st2.v2 ^^^ 255 }
  let st4 := sipRound (sipRound (sipRound st3))
  (st4.v0 ^^^ st4.v1) ^^^ (st4.v2 ^^^ st4.v3)

/-- CPython's compact internal representation of a str, the bytes that
_Py_HashBytes hashes: latin-1 when every code point fits a byte, else UCS-2
little-endian, else UCS-4 little-endian. -/
def pyStrInternalBytes (s : String) : List Nat :=
  let cps := codes s
  if cps.all (fun n => n < 256) then cps
  else if cps.all (fun n => n < 65536) then cps.flatMap (fun n => [n % 256, n / 256])
  else cps.flatMap (fun n => [n % 256, n / 256 % 256, n / 65536 % 256, n / 16777216 % 256])

/-- hash() of a str in a CPython process whose hash key is (k0, k1): models
_Py_HashBytes (empty input hashes to 0 before the key is consulted), the
cast of the siphash13 output to a signed 64-bit Py_hash_t, and the
convention that a result of -1 becomes -2. -/
def pyHashStr (k0 k1 : Nat) (s : String) : Int :=
  let bs := pyStrInternalBytes s
  if bs.isEmpty then 0
  else
    let h := pysiphash13 (w64 k0) (w64 k1) bs
    let i : Int := if h < 9223372036854775808 then (h : Int) else (h : Int) - 18446744073709551616
    if i = -1 then -2 else i

/-- Sanity: matches CPython 3.11 with PYTHONHASHSEED=0 (zero key). -/
theorem pyHashStr_key0 : pyHashStr 0 0 "#ff0000" = 6100521116176248388 := by decide

/-- Sanity: matches CPython 3.11 with PYTHONHASHSEED=0 on a second input. -/
theorem pyHashStr_key0_a : pyHashStr 0 0 "a" = 4644417185603328019 := by decide

/-- Sanity: matches CPython 3.11 with PYTHONHASHSEED=1, whose derived key is
(12598376723466036009, 16999324916296290386). -/
theorem pyHashStr_key1 :
    pyHashStr 12598376723466036009 16999324916296290386 "#ff0000" = -5639320574316050320 := by
  decide

/-! ### JSON values and json.loads
legacy.py parses the text captured from a gui_state comment with json.loads.
This section models the default json.loads: strict strings, the standard
number grammar with maximal munch, the NaN/Infinity constants, and surrogate
handling in \uXXXX escapes. -/

/-- A parsed Python JSON value. Strings are lists of Unicode code points,
since a Python str may hold lone surrogates produced by \uXXXX escapes.
Objects keep their members in textual order, duplicates included; lookups
take the last binding, as building a Python dict does. Floats keep their
lexeme (Python converts it to an IEEE double, which no claim inspects), as
do the NaN and Infinity constants. -/
inductive JValue : Type where
  | null : JValue
  | bool (b : Bool) : JValue
  | int (n : Int) : JValue
  | float (lexeme : List Nat) : JValue
  | str (cs : List Nat) : JValue
  | arr (elems : List JValue) : JValue
  | obj (members : List (List Nat × JValue)) : JValue

/-- JSON whitespace, as skipped by json.loads. -/
def jsonWs (c : Char) : Bool := c = ' ' || c = '\t' || c = '\n' || c = '\r'

/-- Skip JSON whitespace. -/
def skipWs (cs : List Char) : List Char := cs.dropWhile jsonWs

/-- Value of a hexadecimal digit. -/
def hexVal (c : Char) : Option Nat :=
  if c.isDigit then some (c.toNat - 48)
  else if 'a' ≤ c && c ≤ 'f' then some (c.toNat - 87)
  else if 'A' ≤ c && c ≤ 'F' then some (c.toNat - 55)
  else none

/-- The code point of a single-character JSON escape, if valid. -/
def escChar (c : Char) : Option Nat :=
  if c = '"' then some 34
  else if c = '\\' then some 92
  else if c = '/' then some 47
  else if c = 'b' then some 8
  else if c = 'f' then some 12
  else if c = 'n' then some 10
  else if c = 'r' then some 13
  else if c = 't' then some 9
  else none

/-- Scan a JSON string body (the opening quote already consumed), as the
strict json.loads scanner does: raw control characters below 0x20 are
rejected, escapes are the eight single-character ones plus \uXXXX, and a
high surrogate followed by a \u-escaped low surrogate combines into one
code point while an uncombined surrogate is kept as it stands. Returns the
code points and the input after the closing quote. -/
def parseJString : Nat → List Char → Option (List Nat × List Char)
  | 0, _ => none
  | Nat.succ f, cs =>
    match cs with
    | [] => none
    | c :: rest =>
      if c = '"' then some ([], rest)
      else if c = '\\' then
        match rest with
        | 'u' :: h1 :: h2 :: h3 :: h4 :: rest3 =>
          match hexVal h1, hexVal h2, hexVal h3, hexVal h4 with
          | some a, some b, some c2, some d =>
            let u := 4096 * a + 256 * b + 16 * c2 + d
            if 55296 ≤ u ∧ u ≤ 56319 then
              match rest3 with
              | '\\' :: 'u' :: g1 :: g2 :: g3 :: g4 :: rest4 =>
                match hexVal g1, hexVal g2, hexVal g3, hexVal g4 with
                | some a2, some b2, some c3, some d2 =>
                  let u2 := 4096 * a2 + 256 * b2 + 16 * c3 + d2
                  if 56320 ≤ u2 ∧ u2 ≤ 57343 then
                    match parseJString f rest4 with
                    | some (s, r) =>
                      some ((65536 + (u - 55296) * 1024 + (u2 - 56320)) :: s, r)
                    | none => none
                  else
                    match parseJString f rest3 with
                    | some (s, r) => some (u :: s, r)
                    | none => none
                | _, _, _, _ => none
              | _ =>
                match parseJString f rest3 with
                | some (s, r) => some (u :: s, r)
                | none => none
            else
              match parseJString f rest3 with
              | some (s, r) => some (u :: s, r)
              | none => none
          | _, _, _, _ => none
        | e :: rest2 =>
          match escChar e with
          | some u =>
            match parseJString f rest2 with
            | some (s, r) => some (u :: s, r)
            | none => none
          | none => none
        | [] => none
      else if c.toNat < 32 then none
      else
        match parseJString f rest with
        | some (s, r) => some (c.toNat :: s, r)
        | none => none

/-- Decimal value of a digit list. -/
def digitsToNat (ds : List Char) : Nat := ds.foldl (fun acc c => 10 * acc + (c.toNat - 48)) 0

/-- Scan a JSON number with maximal munch, as json.loads's NUMBER_RE does:
-? (0 | [1-9][0-9]*) (. [0-9]+)? ([eE][+-]?[0-9]+)?. A plain integer match
becomes a Python int; a match with a fraction or exponent becomes a float
(kept as its lexeme). Trailing text that cannot extend the match, such as a
dot with no digit, is left unconsumed. -/
def parseNumber (cs : List Char) : Option (JValue × List Char) :=
  let p := match cs with
    | '-' :: r => (true, r)
    | _ => (false, cs)
  match p.2 with
  | [] => none
  | c :: r =>
    let ip : Option (List Char × List Char) :=
      if c = '0' then some (['0'], r)
      else if c.isDigit then some (c :: r.takeWhile Char.isDigit, r.dropWhile Char.isDigit)
      else none
    match ip with
    | none => none
    | some (ids, rest1) =>
      let fr : List Char × List Char := match rest1 with
        | '.' :: d :: r2 =>
          if d.isDigit then ('.' :: d :: r2.takeWhile Char.isDigit, r2.dropWhile Char.isDigit)
          else ([], rest1)
        | _ => ([], rest1)
      let rest2 := fr.2
      let ex : List Char × List Char := match rest2 with
        | e :: '+' :: d :: r3 =>
          if (e = 'e' || e = 'E') && d.isDigit then
            (e :: '+' :: d :: r3.takeWhile Char.isDigit, r3.dropWhile Char.isDigit)
          else ([], rest2)
        | e :: '-' :: d :: r3 =>
          if (e = 'e' || e = 'E') && d.isDigit then
            (e :: '-' :: d :: r3.takeWhile Char.isDigit, r3.dropWhile Char.isDigit)
          else ([], rest2)
        | e :: d :: r3 =>
          if (e = 'e' || e = 'E') && d.isDigit then
            (e :: d :: r3.takeWhile Char.isDigit, r3.dropWhile Char.isDigit)
          else ([], rest2)
        | _ => ([], rest2)
      if fr.1.isEmpty && ex.1.isEmpty then
        let n : Int := Int.ofNat (digitsToNat ids)
        some (.int (if p.1 then -n else n), rest1)
      else
        let lex := (if p.1 then ['-'] else []) ++ ids ++ fr.1 ++ ex.1
        some (.float (lex.map Char.toNat), ex.2)

mutual

/-- Scan one JSON value, as json.loads's scanner does. Fuel bounds the
recursion depth; the input length plus one is always enough. -/
def parseValue : Nat → List Char → Option (JValue × List Char)
  | 0, _ => none
  | Nat.succ f, cs =>
    match cs with
    | [] => none
    | c :: rest =>
      if c = '\x7b' then
        match skipWs rest with
        | '\x7d' :: r => some (.obj [], r)
        | cs1 =>
          match parseObjMembers f cs1 with
          | some (ms, r) => some (.obj ms, r)
          | none => none
      else if c = '[' then
        match skipWs rest with
        | ']' :: r => some (.arr [], r)
        | cs1 =>
          match parseArrElems f cs1 with
          | some (vs, r) => some (.arr vs, r)
          | none => none
      else if c = '"' then
        match parseJString (rest.length + 1) rest with
        | some (s, r) => some (.str s, r)
        | none => none
      else if c = 'n' then
        match rest with
        | 'u' :: 'l' :: 'l' :: r => some (.null, r)
        | _ => none
      else if c = 't' then
        match rest with
        | 'r' :: 'u' :: 'e' :: r => some (.bool true, r)
        | _ => none
      else if c = 'f' then
        match rest with
        | 'a' :: 'l' :: 's' :: 'e' :: r => some (.bool false, r)
        | _ => none
      else if c = 'N' then
        match rest with
        | 'a' :: 'N' :: r => some (.float (codes "NaN"), r)
        | _ => none
      else if c = 'I' then
        match rest with
        | 'n' :: 'f' :: 'i' :: 'n' :: 'i' :: 't' :: 'y' :: r =>
          some (.float (codes "Infinity"), r)
        | _ => none
      else if c = '-' then
        match rest with
        | 'I' :: 'n' :: 'f' :: 'i' :: 'n' :: 'i' :: 't' :: 'y' :: r =>
          some (.float (codes "-Infinity"), r)
        | _ => parseNumber cs
      else if c.isDigit then parseNumber cs
      else none

/-- Scan the elements of a nonempty JSON array, positioned at the first
element; consumes the closing bracket. -/
def parseArrElems : Nat → List Char → Option (List JValue × List Char)
  | 0, _ => none
  | Nat.succ f, cs =>
    match parseValue f cs with
    | none => none
    | some (v, r) =>
      match skipWs r with
      | ',' :: r2 =>
        match parseArrElems f (skipWs r2) with
        | some (vs, r3) => some (v :: vs, r3)
        | none => none
      | ']' :: r2 => some ([v], r2)
      | _ => none

/-- Scan the members of a nonempty JSON object, positioned at the first key;
consumes the closing brace. -/
def parseObjMembers : Nat → List Char → Option (List (List Nat × JValue) × List Char)
  | 0, _ => none
  | Nat.succ f, cs =>
    match cs with
    | '"' :: rest =>
      match parseJString (rest.length + 1) rest with
      | some (k, r) =>
        match skipWs r with
        | ':' :: r2 =>
          match parseValue f (skipWs r2) with
          | some (v, r3) =>
            match skipWs r3 with
            | ',' :: r4 =>
              match parseObjMembers f (skipWs r4) with
              | some (ms, r5) => some ((k, v) :: ms, r5)
              | none => none
            | '\x7d' :: r4 => some ([(k, v)], r4)
            | _ => none
          | none => none
        | _ => none
      | none => none
    | _ => none

end

/-- json.loads on a string: skip whitespace, scan one value, skip
whitespace, and require the input to be exhausted; none models a
json.JSONDecodeError. Resource exhaustion (RecursionError on pathological
nesting depth) is outside the model, as stack and memory limits are for
every function here. -/
def pyJsonLoads (s : String) : Option JValue :=
  let cs := s.toList
  match parseValue (2 * cs.length + 2) (skipWs cs) with
  | some (v, rest) => if (skipWs rest).isEmpty then some v else none
  | none => none

/-! ### The gui_state comment pattern
legacy.py extracts state with re.search over each caller source line; the
pattern is the literal marker, then greedy whitespace, then a capture of an
open brace, a greedy dot, and a close brace. -/

/-- Unicode whitespace as matched by a Python regex \s on a str (sre's
UNI_SPACE, i.e. Py_UNICODE_ISSPACE). -/
def pySpace (c : Char) : Bool :=
  let n := c.toNat
  (9 ≤ n && n ≤ 13) || (28 ≤ n && n ≤ 32) || n = 133 || n = 160 || n = 5760 ||
    (8192 ≤ n && n ≤ 8202) || n = 8232 || n = 8233 || n = 8239 || n = 8287 || n = 12288

/-- The literal marker the pattern starts with. -/
def guiMarker : List Char := String.toList "# gui_state:"

/-- Longest prefix of the region that ends with a close brace, if any: the
greedy dot followed by the literal close brace. -/
def upToLastClose (region : List Char) : Option (List Char) :=
  let rev := region.reverse.dropWhile (fun c => c ≠ '\x7d')
  if rev.isEmpty then none else some rev.reverse

/-- Try the pattern at the head of the input: the 12-character marker, then
greedy whitespace (which may cross newlines), then an open brace, then the
greedy dot (which does not cross a newline) up to the last close brace in
reach. Returns the captured group, braces included. -/
def guiStateAt (cs : List Char) : Option (List Char) :=
  if guiMarker.isPrefixOf cs then
    match (cs.drop 12).dropWhile pySpace with
    | '\x7b' :: tail =>
      match upToLastClose (tail.takeWhile (fun c => c ≠ '\n')) with
      | some body => some ('\x7b' :: body)
      | none => none
    | _ => none
  else none

/-- re.search: try the pattern at every start position, leftmost first. -/
def guiStateSearch : List Char → Option (List Char)
  | [] => none
  | c :: rest =>
    match guiStateAt (c :: rest) with
    | some g => some g
    | none => guiStateSearch rest

/-- The group captured by searching one line for the gui_state pattern, when
the pattern matches the line. -/
def guiStateMatch (line : String) : Option String :=
  (guiStateSearch line.toList).map String.mk

/-! ### legacy.extract_gui_state_from_source -/

/-- The per-block-type default states at the end of
extract_gui_state_from_source: the default blue for the picker, the matching
default for the square, empty properties otherwise. -/
def defaultGuiState (block_type : String) : JValue :=
  if block_type = "picker" then
    .obj [(codes "properties", .obj [(codes "color", .str (codes "#3700ff"))])]
  else if block_type = "square" then
    .obj [(codes "properties", .obj [(codes "color", .str (codes "#3700ff"))])]
  else .obj [(codes "properties", .obj [])]

/-- legacy.extract_gui_state_from_source: scan the lines in order for the
gui_state pattern; the first captured group that json.loads accepts is
returned; a captured group that fails to parse is swallowed (the except
json.JSONDecodeError: pass) and scanning continues; when no line yields a
parsed state the per-block-type default is returned. The modelled loop is
total: it raises nothing. -/
def extract_gui_state_from_source (source_lines : List String) (block_type : String) : JValue :=
  match source_lines with
  | [] => defaultGuiState block_type
  | line :: rest =>
    match guiStateMatch line with
    | some g =>
      match pyJsonLoads g with
      | some v => v
      | none => extract_gui_state_from_source rest block_type
    | none => extract_gui_state_from_source rest block_type

/-! ### Notifications
Each builder constructs a Python dict and prints it with json.dumps as one
line to stdout, flushed; that single line is the whole stdout effect of a
call, so the model returns the dict as an ordered key-value list (its keys
are the ASCII literals of the source). -/

/-- A block resource descriptor, as built by the sources. -/
structure Resource where
  logicalName : String
  physicalPath : String
  cachingTag : String

/-- The JSON object for one resource descriptor. -/
def resourceJValue (r : Resource) : JValue :=
  .obj [(codes "logicalName", .str (codes r.logicalName)),
        (codes "physicalPath", .str (codes r.physicalPath)),
        (codes "cachingTag", .str (codes r.cachingTag))]

/-- An emitted notification: the ordered members of the dict handed to
json.dumps. -/
abbrev Notification : Type := List (String × JValue)

/-- Environment facts the functions read from the filesystem: whether each
block's HTML resource file exists at the fixed relative path, and the
absolute path os.path.abspath computes for it. -/
structure FsEnv where
  picker_html_exists : Bool
  picker_html_abspath : String
  square_html_exists : Bool
  square_html_abspath : String

/-- A CPython process instance, as far as id derivation can observe one:
the per-process 128-bit string-hash key, randomised at interpreter start
unless PYTHONHASHSEED fixes it. -/
structure ProcessInstance where
  k0 : Nat
  k1 : Nat

/-- A Python exception escaping a modelled function. -/
inductive PyErr : Type where
  | attributeError : PyErr

/-- value.get(key, default): defined on a dict, where the last binding of a
duplicated key wins as it does when the dict is built; any other receiver
raises AttributeError, since only dicts have a get method here. -/
def pyGet (v : JValue) (key : List Nat) (dflt : JValue) : Except PyErr JValue :=
  match v with
  | .obj ms =>
    match ms.reverse.find? (fun m => decide (m.1 = key)) with
    | some m => .ok m.2
    | none => .ok dflt
  | _ => .error .attributeError

namespace core

/-- core.emit_vivafolioblock_notification: builds the notification dict and
prints it as one JSON line, modelled by returning the dict. The resources
key is attached only when the argument is truthy, i.e. a nonempty list;
None and an empty list add no key. No validation of entity_graph is
performed anywhere. -/
def emit_vivafolioblock_notification (block_id : String) (block_type : String)
    (entity_id : String) (entity_graph : JValue)
    (resources : Option (List Resource) := none) (display_mode : String := "multi-line")
    (initial_height : Int := 200) : Notification :=
  let notification : Notification :=
    [("blockId", .str (codes block_id)),
     ("blockType", .str (codes
        ("https://blockprotocol.org/@blockprotocol/types/block-type/" ++ block_type ++ "/"))),
     ("displayMode", .str (codes display_mode)),
     ("entityId", .str (codes entity_id)),
     ("entityGraph", entity_graph),
     ("supportsHotReload", .bool false),
     ("initialHeight", .int initial_height)]
  match resources with
  | some (r :: rs) => notification ++ [("resources", .arr ((r :: rs).map resourceJValue))]
  | _ => notification

/-- The deterministic identity digest of core.color_picker and
core.show_square: the first 8 hex characters of the MD5 of the UTF-8
encoding of str(color_value), where str() is the identity on a str. -/
def color_hash (color_value : String) : String := (md5Hex (strBytes color_value)).take 8

/-- The identity digest as computed in a given process instance: the MD5
content digest consults none of the per-process state, unlike the runtime
hash the test-helper copy uses. -/
def identityDigest (_p : ProcessInstance) (v : String) : String := color_hash v

/-- core.color_picker: derive both ids from the content digest, build the
one-entity graph, attach the resource descriptor when the HTML file exists,
emit, and return the input unchanged. The result pair is (emitted
notification, returned value). -/
def color_picker (env : FsEnv) (color_value : String) : Notification × String :=
  let ch := color_hash color_value
  let block_id := "color-picker-" ++ ch
  let entity_id := "color-entity-" ++ ch
  let entity_graph : JValue :=
    .obj [(codes "entities",
            .arr [.obj [(codes "entityId", .str (codes entity_id)),
                        (codes "properties", .obj [(codes "color", .str (codes color_value))])]]),
          (codes "links", .arr [])]
  let resources : Option (List Resource) :=
    if env.picker_html_exists then
      some [⟨"index.html", "file://" ++ env.picker_html_abspath, "picker-v2"⟩]
    else none
  (emit_vivafolioblock_notification block_id "color-picker" entity_id entity_graph resources,
   color_value)

/-- core.show_square: as color_picker but with the square ids, block type
and caching tag. Returns (emitted notification, returned value). -/
def show_square (env : FsEnv) (color_value : String) : Notification × String :=
  let ch := color_hash color_value
  let block_id := "color-square-" ++ ch
  let entity_id := "square-entity-" ++ ch
  let entity_graph : JValue :=
    .obj [(codes "entities",
            .arr [.obj [(codes "entityId", .str (codes entity_id)),
                        (codes "properties", .obj [(codes "color", .str (codes color_value))])]]),
          (codes "links", .arr [])]
  let resources : Option (List Resource) :=
    if env.square_html_exists then
      some [⟨"index.html", "file://" ++ env.square_html_abspath, "square-v2"⟩]
    else none
  (emit_vivafolioblock_notification block_id "color-square" entity_id entity_graph resources,
   color_value)

end core

namespace runtime_path

/-- The id derivation of the test-helper copy of color_picker
(src/test/runtime-path/python/vivafolio_helpers.py): block and entity ids
interpolate hash(str(color_value)), the process-keyed runtime hash,
rendered in decimal by the f-string. -/
def color_picker_ids (p : ProcessInstance) (v : String) : String × String :=
  ("color-picker-" ++ toString (pyHashStr p.k0 p.k1 v),
   "color-entity-" ++ toString (pyHashStr p.k0 p.k1 v))

end runtime_path

namespace legacy

/-- legacy.emit_vivafolioblock_notification: as the core builder, with the
display mode and initial height fixed. -/
def emit_vivafolioblock_notification (block_id : String) (block_type : String)
    (entity_id : String) (entity_graph : JValue)
    (resources : Option (List Resource) := none) : Notification :=
  let notification : Notification :=
    [("blockId", .str (codes block_id)),
     ("blockType", .str (codes
        ("https://blockprotocol.org/@blockprotocol/types/block-type/" ++ block_type ++ "/"))),
     ("displayMode", .str (codes "multi-line")),
     ("entityId", .str (codes entity_id)),
     ("entityGraph", entity_graph),
     ("supportsHotReload", .bool false),
     ("initialHeight", .int 200)]
  match resources with
  | some (r :: rs) => notification ++ [("resources", .arr ((r :: rs).map resourceJValue))]
  | _ => notification

/-- legacy.vivafolio_picker: the caller's source lines, which the source
reads back through frame introspection, are an explicit argument, as is the
resource-file environment. On success the value is the one emitted
notification; the error case is the AttributeError the source raises when
the extracted state carries a non-dict under "properties". -/
def vivafolio_picker (source_lines : List String) (env : FsEnv)
    (block_id : String := "picker-123") : Except PyErr Notification := do
  let current_state := extract_gui_state_from_source source_lines "picker"
  let props ← pyGet current_state (codes "properties") (.obj [])
  let color ← pyGet props (codes "color") (.str (codes "#3700ff"))
  let entity_id := "entity-" ++ block_id
  let initial_graph : JValue :=
    .obj [(codes "entities",
            .arr [.obj [(codes "entityId", .str (codes entity_id)),
                        (codes "properties", .obj [(codes "color", color)])]]),
          (codes "links", .arr [])]
  if env.picker_html_exists then
    pure (emit_vivafolioblock_notification block_id "color-picker" entity_id initial_graph
      (some [⟨"index.html", "file://" ++ env.picker_html_abspath, "picker-v2"⟩]))
  else
    pure (emit_vivafolioblock_notification block_id "color-picker" entity_id initial_graph)

/-- legacy.vivafolio_square: as vivafolio_picker with the square block type,
default block id, resource path and caching tag. -/
def vivafolio_square (source_lines : List String) (env : FsEnv)
    (block_id : String := "square-456") : Except PyErr Notification := do
  let current_state := extract_gui_state_from_source source_lines "square"
  let props ← pyGet current_state (codes "properties") (.obj [])
  let color ← pyGet props (codes "color") (.str (codes "#3700ff"))
  let entity_id := "entity-" ++ block_id
  let initial_graph : JValue :=
    .obj [(codes "entities",
            .arr [.obj [(codes "entityId", .str (codes entity_id)),
                        (codes "properties", .obj [(codes "color", color)])]]),
          (codes "links", .arr [])]
  if env.square_html_exists then
    pure (emit_vivafolioblock_notification block_id "color-square" entity_id initial_graph
      (some [⟨"index.html", "file://" ++ env.square_html_abspath, "square-v2"⟩]))
  else
    pure (emit_vivafolioblock_notification block_id "color-square" entity_id initial_graph)

end legacy

/-! ### Observers over emitted notifications (theorem-side only) -/

/-- First binding of a key in a notification dict; its keys are unique. -/
def notifGet (n : Notification) (key : String) : Option JValue :=
  (n.find? (fun m => decide (m.1 = key))).map (fun m => m.2)

/-- The keys of a notification dict, in order. -/
def notifKeys (n : Notification) : List String := n.map (fun m => m.1)

/-- Last binding of a key among JSON object members (dict semantics). -/
def jmemGet (ms : List (List Nat × JValue)) (key : List Nat) : Option JValue :=
  (ms.reverse.find? (fun m => decide (m.1 = key))).map (fun m => m.2)

/-- The color property of the notification's first entity, when the
notification has the shape the builders produce. -/
def notifColor (n : Notification) : Option JValue :=
  match notifGet n "entityGraph" with
  | some (.obj gms) =>
    match jmemGet gms (codes "entities") with
    | some (.arr (e :: _)) =>
      match e with
      | .obj ems =>
        match jmemGet ems (codes "properties") with
        | some (.obj pms) => jmemGet pms (codes "color")
        | _ => none
      | _ => none
    | _ => none
  | _ => none

/-- The shape invariant of every emitted graph: exactly one entity, whose
entityId equals the notification's top-level entityId, and an empty links
list. -/
def singleEntityGraph (n : Notification) : Prop :=
  ∃ eid props,
    notifGet n "entityId" = some (.str eid) ∧
    notifGet n "entityGraph" =
      some (.obj [(codes "entities",
                    .arr [.obj [(codes "entityId", .str eid),
                                (codes "properties", props)]]),
                  (codes "links", .arr [])])

/-! ### Helper lemmas -/

/-- A line contributes no state to the extractor: its pattern match is
absent, or every captured group fails to parse. -/
def lineYieldsNoState (l : String) : Prop :=
  ∀ g, guiStateMatch l = some g → pyJsonLoads g = none

/-- Binding an ok value in the Except monad applies the continuation. -/
theorem bind_ok_py {α β : Type} (a : α) (f : α → Except PyErr β) :
    Bind.bind (Except.ok a : Except PyErr α) f = f a := rfl

/-- Binding an error in the Except monad propagates the error. -/
theorem bind_error_py {α β : Type} (e : PyErr) (f : α → Except PyErr β) :
    Bind.bind (Except.error e : Except PyErr α) f = Except.error e := rfl

/-- get on a dict value never raises: it returns the last binding, or the
default when the key is unbound. -/
theorem pyGet_obj (ms : List (List Nat × JValue)) (k : List Nat) (d : JValue) :
    pyGet (.obj ms) k d = .ok ((jmemGet ms k).getD d) := by
  cases hf : ms.reverse.find? (fun m => decide (m.1 = k)) with
  | none => simp [pyGet, jmemGet, hf]
  | some m => simp [pyGet, jmemGet, hf]

/-- Lines that yield no state are skipped: the extractor's result on them
followed by any rest is its result on the rest. -/
theorem extract_skips (pre rest : List String) (bt : String)
    (h : ∀ l ∈ pre, lineYieldsNoState l) :
    extract_gui_state_from_source (pre ++ rest) bt =
      extract_gui_state_from_source rest bt := by
  induction pre with
  | nil => rfl
  | cons l ls ih =>
    have hl : lineYieldsNoState l := h l (List.mem_cons_self l ls)
    have hls : ∀ x ∈ ls, lineYieldsNoState x := fun x hx => h x (List.mem_cons_of_mem l hx)
    show extract_gui_state_from_source (l :: (ls ++ rest)) bt = _
    cases hm : guiStateMatch l with
    | none =>
      simp only [extract_gui_state_from_source, hm]
      exact ih hls
    | some g =>
      simp only [extract_gui_state_from_source, hm, hl g hm]
      exact ih hls

/-- When every line yields no state, the extractor returns the default. -/
theorem extract_all_fail (lines : List String) (bt : String)
    (h : ∀ l ∈ lines, lineYieldsNoState l) :
    extract_gui_state_from_source lines bt = defaultGuiState bt := by
  have h2 := extract_skips lines [] bt h
  rwa [List.append_nil] at h2

/-! ### The claims -/

/-- C1 (amended): for the vivafolio package's color_picker and show_square
(core.py), the identity digest used to build block and entity identifiers
is deterministic across process instances: whatever per-process hash key
two CPython processes drew, the digest of the same string input v is the
same, namely the first 8 hex characters of the MD5 content hash of the
UTF-8 encoding of str(v); and the two functions' emitted notifications are
likewise identical across processes. -/
theorem core_identityDigest_process_independent (p1 p2 : ProcessInstance)
    (env : FsEnv) (v : String) :
    core.identityDigest p1 v = core.identityDigest p2 v ∧
    core.identityDigest p1 v = (md5Hex (strBytes v)).take 8 ∧
    core.color_picker env v = core.color_picker env v ∧
    core.show_square env v = core.show_square env v := ⟨rfl, rfl, rfl, rfl⟩

/-- C1 (counterexample): the runtime-path test-helper copy of color_picker
derives its identifiers from hash(str(v)), the process-keyed runtime hash,
so two process instances with different hash keys — here the keys CPython
derives from PYTHONHASHSEED=0 and PYTHONHASHSEED=1 — produce different
block and entity identifiers for the same input "#ff0000". -/
theorem runtime_path_digest_process_dependent :
    runtime_path.color_picker_ids ⟨0, 0⟩ "#ff0000" ≠
      runtime_path.color_picker_ids
        ⟨12598376723466036009, 16999324916296290386⟩ "#ff0000" := by decide

/-- C2 (amended): core.emit_vivafolioblock_notification performs no
structural validation of entityGraph: for every entityGraph, including one
lacking the entities and links fields, it does not fail; it writes the one
notification line, carrying the given entityGraph verbatim under the
entityGraph key. -/
theorem core_emit_no_entityGraph_validation (bid bt eid : String) (graph : JValue)
    (res : Option (List Resource)) (dm : String) (ih : Int) :
    notifGet (core.emit_vivafolioblock_notification bid bt eid graph res dm ih)
        "entityGraph" = some graph ∧
    core.emit_vivafolioblock_notification bid bt eid graph res dm ih ≠ [] := by
  rcases res with _ | ⟨_ | ⟨r, rs⟩⟩
  · exact ⟨rfl, List.cons_ne_nil _ _⟩
  · exact ⟨rfl, List.cons_ne_nil _ _⟩
  · exact ⟨rfl, List.cons_ne_nil _ _⟩

/-- C2 (counterexample to the claim as stated): called on an entityGraph
lacking both required fields — the empty JSON object, which binds neither
entities nor links — the builder does not fail with any validation error;
it writes this complete notification line to stdout. -/
theorem core_emit_writes_malformed_entityGraph :
    jmemGet [] (codes "entities") = none ∧
    jmemGet [] (codes "links") = none ∧
    core.emit_vivafolioblock_notification "block-1" "color-picker" "entity-1"
        (.obj []) none "multi-line" 200 =
      [("blockId", .str (codes "block-1")),
       ("blockType", .str (codes
          "https://blockprotocol.org/@blockprotocol/types/block-type/color-picker/")),
       ("displayMode", .str (codes "multi-line")),
       ("entityId", .str (codes "entity-1")),
       ("entityGraph", .obj []),
       ("supportsHotReload", .bool false),
       ("initialHeight", .int 200)] := ⟨rfl, rfl, rfl⟩

/-- C3: the legacy extractor never raises: it is a total function of the
caller's source lines, and whenever every line that matches the gui_state
pattern captures text that is not valid JSON, the parse error is swallowed
and the default state with color "#3700ff" is returned for both the picker
and the square block types. -/
theorem extract_swallows_invalid_and_defaults (lines : List String)
    (h : ∀ l ∈ lines, lineYieldsNoState l) :
    extract_gui_state_from_source lines "picker" =
      .obj [(codes "properties", .obj [(codes "color", .str (codes "#3700ff"))])] ∧
    extract_gui_state_from_source lines "square" =
      .obj [(codes "properties", .obj [(codes "color", .str (codes "#3700ff"))])] :=
  ⟨extract_all_fail lines "picker" h, extract_all_fail lines "square" h⟩

/-- C3 (witness): on a caller source whose gui_state comment captures text
that is not valid JSON, extraction falls back to the default state. -/
theorem extract_swallows_invalid_and_defaults_witness :
    extract_gui_state_from_source ["# gui_state: \x7bnot valid json\x7d"] "picker" =
      .obj [(codes "properties", .obj [(codes "color", .str (codes "#3700ff"))])] ∧
    extract_gui_state_from_source ["# gui_state: \x7bnot valid json\x7d"] "square" =
      .obj [(codes "properties", .obj [(codes "color", .str (codes "#3700ff"))])] :=
  extract_swallows_invalid_and_defaults ["# gui_state: \x7bnot valid json\x7d"]
    (by
      intro l hl g hg
      rw [List.mem_singleton] at hl
      subst hl
      rw [show guiStateMatch "# gui_state: \x7bnot valid json\x7d" =
            some "\x7bnot valid json\x7d" from rfl] at hg
      obtain rfl : g = "\x7bnot valid json\x7d" := (Option.some.inj hg).symm
      rfl)

/-- C5: core.color_picker and core.show_square return their input value
unchanged in every environment; the notification emission is the only
effect and the returned value is untouched. -/
theorem core_returns_input_unchanged (env : FsEnv) (v : String) :
    (core.color_picker env v).2 = v ∧ (core.show_square env v).2 = v := ⟨rfl, rfl⟩

/-- C6: when no nonempty resources list is supplied to the notification
builder — resources is None or the empty list — the emitted notification
has no resources key at all; in particular core.color_picker and
core.show_square emit no resources key when no resource file exists at the
expected path, and the legacy builder behaves as the core one. -/
theorem emit_omits_resources_key (bid bt eid : String) (graph : JValue)
    (res : Option (List Resource)) (dm : String) (ih : Int)
    (env : FsEnv) (v : String)
    (h : res = none ∨ res = some []) :
    "resources" ∉ notifKeys (core.emit_vivafolioblock_notification bid bt eid graph res dm ih) ∧
    "resources" ∉ notifKeys (legacy.emit_vivafolioblock_notification bid bt eid graph res) ∧
    (env.picker_html_exists = false →
      "resources" ∉ notifKeys (core.color_picker env v).1) ∧
    (env.square_html_exists = false →
      "resources" ∉ notifKeys (core.show_square env v).1) := by
  have hbase : "resources" ∉ (["blockId", "blockType", "displayMode", "entityId",
      "entityGraph", "supportsHotReload", "initialHeight"] : List String) := by decide
  refine ⟨?_, ?_, ?_, ?_⟩
  · rcases h with rfl | rfl <;> exact hbase
  · rcases h with rfl | rfl <;> exact hbase
  · intro he
    obtain ⟨pe, pa, se, sa⟩ := env
    subst he
    exact hbase
  · intro he
    obtain ⟨pe, pa, se, sa⟩ := env
    subst he
    exact hbase

/-- C6 (witness): at a concrete call with resources absent, and concrete
calls of the two core functions with no resource file present, the emitted
notifications carry no resources key. -/
theorem emit_omits_resources_key_witness :
    "resources" ∉ notifKeys (core.emit_vivafolioblock_notification "b" "color-picker" "e"
        (.obj []) none "multi-line" 200) ∧
    "resources" ∉ notifKeys (legacy.emit_vivafolioblock_notification "b" "color-picker" "e"
        (.obj []) none) ∧
    "resources" ∉ notifKeys (core.color_picker ⟨false, "", false, ""⟩ "#ff0000").1 ∧
    "resources" ∉ notifKeys (core.show_square ⟨false, "", false, ""⟩ "#ff0000").1 := by
  have h := emit_omits_resources_key "b" "color-picker" "e" (.obj []) none "multi-line" 200
    ⟨false, "", false, ""⟩ "#ff0000" (Or.inl rfl)
  exact ⟨h.1, h.2.1, h.2.2.1 rfl, h.2.2.2 rfl⟩

/-- C4: when the caller's source lines carry the comment
directing the gui_state to color "#112233" — and every earlier line yields
no state — vivafolio_picker emits a notification whose entityGraph color is
"#112233"; when no line matches the gui_state pattern at all, the emitted
color is the default "#3700ff". -/
theorem legacy_picker_color_from_comment :
    (∀ (pre post : List String) (env : FsEnv) (bid : String),
      (∀ l ∈ pre, lineYieldsNoState l) →
      ∃ n, legacy.vivafolio_picker
          (pre ++ "# gui_state: \x7b\"properties\":\x7b\"color\":\"#112233\"\x7d\x7d" :: post)
          env bid = .ok n ∧
        notifColor n = some (.str (codes "#112233"))) ∧
    (∀ (lines : List String) (env : FsEnv) (bid : String),
      (∀ l ∈ lines, guiStateMatch l = none) →
      ∃ n, legacy.vivafolio_picker lines env bid = .ok n ∧
        notifColor n = some (.str (codes "#3700ff"))) := by
  constructor
  · intro pre post env bid hpre
    have hex : extract_gui_state_from_source
        (pre ++ "# gui_state: \x7b\"properties\":\x7b\"color\":\"#112233\"\x7d\x7d" :: post)
        "picker" =
        .obj [(codes "properties", .obj [(codes "color", .str (codes "#112233"))])] := by
      rw [extract_skips pre _ "picker" hpre]
      rfl
    unfold legacy.vivafolio_picker
    rw [hex]
    obtain ⟨pe, pa, se, sa⟩ := env
    cases pe
    · exact ⟨_, rfl, rfl⟩
    · exact ⟨_, rfl, rfl⟩
  · intro lines env bid hnm
    have hno : ∀ l ∈ lines, lineYieldsNoState l := by
      intro l hl g hg
      rw [hnm l hl] at hg
      exact Option.noConfusion hg
    have hex := extract_all_fail lines "picker" hno
    unfold legacy.vivafolio_picker
    rw [hex]
    obtain ⟨pe, pa, se, sa⟩ := env
    cases pe
    · exact ⟨_, rfl, rfl⟩
    · exact ⟨_, rfl, rfl⟩

/-- C4 (witness): with the concrete comment present the emitted color is
"#112233"; with no gui_state comment it is the default "#3700ff". -/
theorem legacy_picker_color_from_comment_witness :
    (∃ n, legacy.vivafolio_picker
        ["x = 1", "# gui_state: \x7b\"properties\":\x7b\"color\":\"#112233\"\x7d\x7d"]
        ⟨true, "/tmp/p.html", true, "/tmp/s.html"⟩ "picker-123" = .ok n ∧
      notifColor n = some (.str (codes "#112233"))) ∧
    (∃ n, legacy.vivafolio_picker ["x = 1"] ⟨true, "/tmp/p.html", true, "/tmp/s.html"⟩
        "picker-123" = .ok n ∧
      notifColor n = some (.str (codes "#3700ff"))) :=
  ⟨legacy_picker_color_from_comment.1 ["x = 1"] [] ⟨true, "/tmp/p.html", true, "/tmp/s.html"⟩
      "picker-123"
      (by
        intro l hl g hg
        rw [List.mem_singleton] at hl
        subst hl
        exact Option.noConfusion hg),
   legacy_picker_color_from_comment.2 ["x = 1"] ⟨true, "/tmp/p.html", true, "/tmp/s.html"⟩
      "picker-123"
      (by
        intro l hl
        rw [List.mem_singleton] at hl
        subst hl
        rfl)⟩

/-- C7: whatever the caller's source lines and environment, when
vivafolio_picker or vivafolio_square emits a notification, its entity
identifier is the string "entity-" concatenated with the caller-supplied
blockId, with no hashing applied. -/
theorem legacy_entity_id_from_block_id (lines : List String) (env : FsEnv) (bid : String) :
    (∀ n, legacy.vivafolio_picker lines env bid = .ok n →
      notifGet n "entityId" = some (.str (codes ("entity-" ++ bid)))) ∧
    (∀ n, legacy.vivafolio_square lines env bid = .ok n →
      notifGet n "entityId" = some (.str (codes ("entity-" ++ bid)))) := by
  constructor
  · intro n hn
    unfold legacy.vivafolio_picker at hn
    cases h1 : pyGet (extract_gui_state_from_source lines "picker") (codes "properties")
        (.obj []) with
    | error e =>
      simp only [h1, bind_error_py] at hn
      exact Except.noConfusion hn
    | ok props =>
      simp only [h1, bind_ok_py] at hn
      cases h2 : pyGet props (codes "color") (.str (codes "#3700ff")) with
      | error e =>
        simp only [h2, bind_error_py] at hn
        exact Except.noConfusion hn
      | ok color =>
        simp only [h2, bind_ok_py] at hn
        obtain ⟨pe, pa, se, sa⟩ := env
        cases pe
        · obtain rfl := Except.ok.inj hn
          rfl
        · obtain rfl := Except.ok.inj hn
          rfl
  · intro n hn
    unfold legacy.vivafolio_square at hn
    cases h1 : pyGet (extract_gui_state_from_source lines "square") (codes "properties")
        (.obj []) with
    | error e =>
      simp only [h1, bind_error_py] at hn
      exact Except.noConfusion hn
    | ok props =>
      simp only [h1, bind_ok_py] at hn
      cases h2 : pyGet props (codes "color") (.str (codes "#3700ff")) with
      | error e =>
        simp only [h2, bind_error_py] at hn
        exact Except.noConfusion hn
      | ok color =>
        simp only [h2, bind_ok_py] at hn
        obtain ⟨pe, pa, se, sa⟩ := env
        cases se
        · obtain rfl := Except.ok.inj hn
          rfl
        · obtain rfl := Except.ok.inj hn
          rfl

/-- C7 (witness): on a concrete call the emitted entity identifier is
entity- followed by the supplied blockId. -/
theorem legacy_entity_id_from_block_id_witness :
    notifGet ((legacy.vivafolio_picker ["pass"] ⟨false, "", false, ""⟩
        "picker-123").toOption.getD []) "entityId" =
      some (.str (codes ("entity-" ++ "picker-123"))) ∧
    notifGet ((legacy.vivafolio_square ["pass"] ⟨false, "", false, ""⟩
        "square-456").toOption.getD []) "entityId" =
      some (.str (codes ("entity-" ++ "square-456"))) :=
  ⟨(legacy_entity_id_from_block_id ["pass"] ⟨false, "", false, ""⟩ "picker-123").1 _ rfl,
   (legacy_entity_id_from_block_id ["pass"] ⟨false, "", false, ""⟩ "square-456").2 _ rfl⟩

/-- C8: every notification emitted by color_picker, show_square,
vivafolio_picker or vivafolio_square carries an entityGraph with exactly
one entity, whose entityId equals the notification's top-level entityId,
and an empty links list. -/
theorem emitted_graph_single_entity :
    (∀ (env : FsEnv) (v : String), singleEntityGraph (core.color_picker env v).1) ∧
    (∀ (env : FsEnv) (v : String), singleEntityGraph (core.show_square env v).1) ∧
    (∀ (lines : List String) (env : FsEnv) (bid : String) (n : Notification),
      legacy.vivafolio_picker lines env bid = .ok n → singleEntityGraph n) ∧
    (∀ (lines : List String) (env : FsEnv) (bid : String) (n : Notification),
      legacy.vivafolio_square lines env bid = .ok n → singleEntityGraph n) := by
  refine ⟨?_, ?_, ?_, ?_⟩
  · intro env v
    obtain ⟨pe, pa, se, sa⟩ := env
    cases pe
    · exact ⟨_, _, rfl, rfl⟩
    · exact ⟨_, _, rfl, rfl⟩
  · intro env v
    obtain ⟨pe, pa, se, sa⟩ := env
    cases se
    · exact ⟨_, _, rfl, rfl⟩
    · exact ⟨_, _, rfl, rfl⟩
  · intro lines env bid n hn
    unfold legacy.vivafolio_picker at hn
    cases h1 : pyGet (extract_gui_state_from_source lines "picker") (codes "properties")
        (.obj []) with
    | error e =>
      simp only [h1, bind_error_py] at hn
      exact Except.noConfusion hn
    | ok props =>
      simp only [h1, bind_ok_py] at hn
      cases h2 : pyGet props (codes "color") (.str (codes "#3700ff")) with
      | error e =>
        simp only [h2, bind_error_py] at hn
        exact Except.noConfusion hn
      | ok color =>
        simp only [h2, bind_ok_py] at hn
        obtain ⟨pe, pa, se, sa⟩ := env
        cases pe
        · obtain rfl := Except.ok.inj hn
          exact ⟨_, _, rfl, rfl⟩
        · obtain rfl := Except.ok.inj hn
          exact ⟨_, _, rfl, rfl⟩
  · intro lines env bid n hn
    unfold legacy.vivafolio_square at hn
    cases h1 : pyGet (extract_gui_state_from_source lines "square") (codes "properties")
        (.obj []) with
    | error e =>
      simp only [h1, bind_error_py] at hn
      exact Except.noConfusion hn
    | ok props =>
      simp only [h1, bind_ok_py] at hn
      cases h2 : pyGet props (codes "color") (.str (codes "#3700ff")) with
      | error e =>
        simp only [h2, bind_error_py] at hn
        exact Except.noConfusion hn
      | ok color =>
        simp only [h2, bind_ok_py] at hn
        obtain ⟨pe, pa, se, sa⟩ := env
        cases se
        · obtain rfl := Except.ok.inj hn
          exact ⟨_, _, rfl, rfl⟩
        · obtain rfl := Except.ok.inj hn
          exact ⟨_, _, rfl, rfl⟩

/-- C8 (witness): concrete calls of all four functions satisfy the
single-entity invariant. -/
theorem emitted_graph_single_entity_witness :
    singleEntityGraph (core.color_picker ⟨true, "/tmp/p.html", true, "/tmp/s.html"⟩
        "#ff0000").1 ∧
    singleEntityGraph (core.show_square ⟨true, "/tmp/p.html", true, "/tmp/s.html"⟩
        "#ff0000").1 ∧
    singleEntityGraph ((legacy.vivafolio_picker ["pass"] ⟨false, "", false, ""⟩
        "picker-123").toOption.getD []) ∧
    singleEntityGraph ((legacy.vivafolio_square ["pass"] ⟨false, "", false, ""⟩
        "square-456").toOption.getD []) :=
  ⟨emitted_graph_single_entity.1 ⟨true, "/tmp/p.html", true, "/tmp/s.html"⟩ "#ff0000",
   emitted_graph_single_entity.2.1 ⟨true, "/tmp/p.html", true, "/tmp/s.html"⟩ "#ff0000",
   emitted_graph_single_entity.2.2.1 ["pass"] ⟨false, "", false, ""⟩ "picker-123" _ rfl,
   emitted_graph_single_entity.2.2.2 ["pass"] ⟨false, "", false, ""⟩ "square-456" _ rfl⟩

/-- C9: when every earlier line yields no state — its pattern match is
absent or its captured text fails to parse — and a later line's captured
text parses as valid JSON, scanning continues past the failures and that
first parsed state is returned. -/
theorem extract_continues_after_invalid (pre : List String) (line : String)
    (post : List String) (bt : String) (g : String) (j : JValue)
    (hpre : ∀ l ∈ pre, lineYieldsNoState l)
    (hm : guiStateMatch line = some g) (hj : pyJsonLoads g = some j) :
    extract_gui_state_from_source (pre ++ line :: post) bt = j := by
  rw [extract_skips pre (line :: post) bt hpre]
  simp only [extract_gui_state_from_source, hm, hj]

/-- C9 (witness): after a line whose captured text is invalid JSON, the
next line's valid JSON supplies the state. -/
theorem extract_continues_after_invalid_witness :
    extract_gui_state_from_source
        ["# gui_state: \x7bbad\x7d", "# gui_state: \x7b\"a\": 1\x7d"] "picker" =
      .obj [(codes "a", .int 1)] :=
  extract_continues_after_invalid ["# gui_state: \x7bbad\x7d"]
    "# gui_state: \x7b\"a\": 1\x7d" [] "picker" "\x7b\"a\": 1\x7d"
    (.obj [(codes "a", .int 1)])
    (by
      intro l hl g hg
      rw [List.mem_singleton] at hl
      subst hl
      rw [show guiStateMatch "# gui_state: \x7bbad\x7d" = some "\x7bbad\x7d" from rfl] at hg
      obtain rfl : g = "\x7bbad\x7d" := (Option.some.inj hg).symm
      rfl)
    rfl rfl

/-- C10: when the extracted state is a mapping that lacks the properties
key, or whose properties mapping lacks the color key, vivafolio_picker and
vivafolio_square emit the default color "#3700ff" without raising. -/
theorem legacy_default_color_on_missing_keys :
    (∀ (lines : List String) (env : FsEnv) (bid : String)
        (ms : List (List Nat × JValue)),
      extract_gui_state_from_source lines "picker" = .obj ms →
      (jmemGet ms (codes "properties") = none ∨
        ∃ pm, jmemGet ms (codes "properties") = some (.obj pm) ∧
          jmemGet pm (codes "color") = none) →
      ∃ n, legacy.vivafolio_picker lines env bid = .ok n ∧
        notifColor n = some (.str (codes "#3700ff"))) ∧
    (∀ (lines : List String) (env : FsEnv) (bid : String)
        (ms : List (List Nat × JValue)),
      extract_gui_state_from_source lines "square" = .obj ms →
      (jmemGet ms (codes "properties") = none ∨
        ∃ pm, jmemGet ms (codes "properties") = some (.obj pm) ∧
          jmemGet pm (codes "color") = none) →
      ∃ n, legacy.vivafolio_square lines env bid = .ok n ∧
        notifColor n = some (.str (codes "#3700ff"))) := by
  constructor
  · intro lines env bid ms hms hlack
    simp only [legacy.vivafolio_picker]
    rw [hms, pyGet_obj]
    rcases hlack with hnone | ⟨pm, hpm, hc⟩
    · rw [hnone]
      obtain ⟨pe, pa, se, sa⟩ := env
      cases pe
      · exact ⟨_, rfl, rfl⟩
      · exact ⟨_, rfl, rfl⟩
    · rw [hpm]
      simp only [Option.getD_some, bind_ok_py]
      rw [pyGet_obj, hc]
      obtain ⟨pe, pa, se, sa⟩ := env
      cases pe
      · exact ⟨_, rfl, rfl⟩
      · exact ⟨_, rfl, rfl⟩
  · intro lines env bid ms hms hlack
    simp only [legacy.vivafolio_square]
    rw [hms, pyGet_obj]
    rcases hlack with hnone | ⟨pm, hpm, hc⟩
    · rw [hnone]
      obtain ⟨pe, pa, se, sa⟩ := env
      cases se
      · exact ⟨_, rfl, rfl⟩
      · exact ⟨_, rfl, rfl⟩
    · rw [hpm]
      simp only [Option.getD_some, bind_ok_py]
      rw [pyGet_obj, hc]
      obtain ⟨pe, pa, se, sa⟩ := env
      cases se
      · exact ⟨_, rfl, rfl⟩
      · exact ⟨_, rfl, rfl⟩

/-- C10 (witness): a state lacking the properties key, and a state whose
properties mapping lacks the color key, both yield the default color. -/
theorem legacy_default_color_on_missing_keys_witness :
    (∃ n, legacy.vivafolio_picker ["# gui_state: \x7b\"x\": 1\x7d"]
        ⟨false, "", false, ""⟩ "picker-123" = .ok n ∧
      notifColor n = some (.str (codes "#3700ff"))) ∧
    (∃ n, legacy.vivafolio_square ["# gui_state: \x7b\"properties\": \x7b\x7d\x7d"]
        ⟨false, "", false, ""⟩ "square-456" = .ok n ∧
      notifColor n = some (.str (codes "#3700ff"))) :=
  ⟨legacy_default_color_on_missing_keys.1 ["# gui_state: \x7b\"x\": 1\x7d"]
      ⟨false, "", false, ""⟩ "picker-123" [(codes "x", .int 1)] rfl (Or.inl rfl),
   legacy_default_color_on_missing_keys.2 ["# gui_state: \x7b\"properties\": \x7b\x7d\x7d"]
      ⟨false, "", false, ""⟩ "square-456" [(codes "properties", .obj [])] rfl
      (Or.inr ⟨[], rfl, rfl⟩)⟩

end Vivafolio
